import Mathlib

/-!
Verification of the everscore virtual scoreboard client (`src/everscore.py`).

The development shallowly embeds the state-synchronization and
mode-arbitration core of the program: the mode predicates
(`is_auto_mode`, `is_send_mode`), the serial and UDP event handlers
(`handle_serial_data`, `handle_udp_packet`), the manual push path
(`sendManualUpdate`, `_build_state_from_qml`), and the tolerant state
normalizer / renderer update (`handle_score_update`).

Python values arriving from JSON or the console feed are modelled by the
`Value` type.  Python's tolerant `int()` conversion, `str()`
stringification and `json.loads` are modelled by `to_int`, `pyStr` and
`json_loads`.  Modelling scope, stated once here: text is treated at the
level of Unicode code points; only ASCII decimal digits and ASCII
whitespace are recognised by the tolerant integer parser (CPython also
accepts non-ASCII decimal digits); JSON numbers are modelled as exact
decimals (`Value.numF`), not IEEE doubles, and the non-standard
`Infinity`/`NaN` extensions are outside the model; `\u` escapes decode a
single code unit without surrogate pairing.
-/

namespace Everscore

/-- Model of a Python/JSON value as it flows through the program: the
result of `json.loads` or a field of the console feed's state dict.
`numF m s` models the float with exact value `m / 10^s`. -/
inductive Value where
  | null
  | bool (b : Bool)
  | int (n : Int)
  | numF (m : Int) (s : Nat)
  | str (s : String)
  | arr (xs : List Value)
  | obj (fields : List (String × Value))

/-- A Python dict with string keys, in insertion order (later duplicate
keys override earlier ones, as in `json.loads`). -/
abbrev PyDict := List (String × Value)

/-- Model of `state.get(k)`: the last binding of `k` wins, `None` when
absent. -/
def dictGet (st : PyDict) (k : String) : Option Value :=
  match st with
  | [] => none
  | (k', v) :: rest =>
    match dictGet rest k with
    | some r => some r
    | none => if k' = k then some v else none

/-- Whether `v` is a dict (`isinstance(v, dict)`). -/
def Value.isObj : Value → Bool
  | .obj _ => true
  | _ => false

/-- ASCII whitespace stripped by Python's `int(str)`. -/
def pySpace (c : Char) : Bool :=
  c = ' ' || c = '\t' || c = '\n' || c = '\r' || c = '\x0b' || c = '\x0c'

/-- ASCII decimal digit test (the only digits the model recognises). -/
def isDigitChar (c : Char) : Bool := 48 ≤ c.toNat && c.toNat ≤ 57

/-- Strip leading and trailing whitespace. -/
def stripWs (l : List Char) : List Char :=
  ((l.dropWhile pySpace).reverse.dropWhile pySpace).reverse

/-- Digits of an integer literal after the first one: single underscores
are permitted between digits, as in CPython. -/
def pyDigitsRest (l : List Char) (acc : Nat) : Option Nat :=
  match l with
  | [] => some acc
  | c :: rest =>
    if c = '_' then
      match rest with
      | [] => none
      | c2 :: rest2 =>
        if isDigitChar c2 then pyDigitsRest rest2 (acc * 10 + (c2.toNat - 48)) else none
    else if isDigitChar c then pyDigitsRest rest (acc * 10 + (c.toNat - 48)) else none

/-- An unsigned integer literal: at least one digit. -/
def pyNum (l : List Char) : Option Nat :=
  match l with
  | [] => none
  | c :: rest => if isDigitChar c then pyDigitsRest rest (c.toNat - 48) else none

/-- Model of Python `int(s)` for a string argument: `none` models the
`ValueError` raised on a malformed literal. -/
def pythonInt (s : String) : Option Int :=
  match stripWs s.toList with
  | [] => none
  | c :: rest =>
    if c = '-' then (pyNum rest).map (fun n => -(n : Int))
    else if c = '+' then (pyNum rest).map (fun n => (n : Int))
    else (pyNum (c :: rest)).map (fun n => (n : Int))

/-- Embedding of `to_int` (src/everscore.py lines 580-584): Python
`int(val)` with `TypeError`/`ValueError` defaulted to 0.  The argument is
the result of `state.get(key)` (`none` models Python `None`).  `int` of a
float truncates toward zero; `int` of `bool` uses `True = 1`. -/
def to_int : Option Value → Int
  | none => 0
  | some (.int n) => n
  | some (.bool b) => if b then 1 else 0
  | some (.numF m s) => m.tdiv ((10 : Int) ^ s)
  | some (.str s) => (pythonInt s).getD 0
  | some .null => 0
  | some (.arr _) => 0
  | some (.obj _) => 0

/-- `to_int` applied directly to a string, as in the clock parsing code. -/
def to_intS (s : String) : Int := to_int (some (.str s))

/-- Zero-pad a decimal string on the left to width `w`. -/
def padZeros (w : Nat) (s : String) : String :=
  String.mk (List.replicate (w - s.length) '0') ++ s

/-- Rendering of the exact float `m / 10^s`, modelling `str(float)` for
the plain decimal range (no scientific notation). -/
def floatStr (m : Int) (s : Nat) : String :=
  if s = 0 then toString m ++ ".0"
  else
    let sign := if m < 0 then "-" else ""
    let a := m.natAbs
    sign ++ toString (a / 10 ^ s) ++ "." ++ padZeros s (toString (a % 10 ^ s))

mutual

/-- Model of Python `repr` on JSON-shaped values (`repr(str)` is modelled
with single quotes and no escaping). -/
def pyRepr : Value → String
  | .null => "None"
  | .bool b => if b then "True" else "False"
  | .int n => toString n
  | .numF m s => floatStr m s
  | .str s => "'" ++ s ++ "'"
  | .arr xs => "[" ++ pyReprItems xs ++ "]"
  | .obj fs => "\x7b" ++ pyReprFields fs ++ "\x7d"

/-- Comma-separated reprs of list elements. -/
def pyReprItems : List Value → String
  | [] => ""
  | [v] => pyRepr v
  | v :: rest => pyRepr v ++ ", " ++ pyReprItems rest

/-- Comma-separated `key: value` reprs of dict entries. -/
def pyReprFields : List (String × Value) → String
  | [] => ""
  | [(k, v)] => "'" ++ k ++ "': " ++ pyRepr v
  | (k, v) :: rest => "'" ++ k ++ "': " ++ pyRepr v ++ ", " ++ pyReprFields rest

end

/-- Model of Python `str(v)`: identical to `repr(v)` except on strings,
which are returned verbatim. -/
def pyStr : Value → String
  | .str s => s
  | v => pyRepr v

/-- First decimal digit of a string scanned left to right, 0 when none:
`next((int(ch) for ch in s if ch.isdigit()), 0)`. -/
def firstDigit (s : String) : Int :=
  match s.toList.find? (fun c => isDigitChar c) with
  | some c => ((c.toNat - 48 : Nat) : Int)
  | none => 0

/-! ### JSON parsing (model of `json.loads`) -/

/-- JSON insignificant whitespace. -/
def jsonWsChar (c : Char) : Bool :=
  c = ' ' || c = '\t' || c = '\n' || c = '\r'

/-- Skip insignificant whitespace. -/
def skipWs (l : List Char) : List Char := l.dropWhile jsonWsChar

/-- Value of one hexadecimal digit. -/
def hexVal (c : Char) : Option Nat :=
  if isDigitChar c then some (c.toNat - 48)
  else if 'a' ≤ c ∧ c ≤ 'f' then some (c.toNat - 87)
  else if 'A' ≤ c ∧ c ≤ 'F' then some (c.toNat - 55)
  else none

/-- Single-character JSON string escapes. -/
def escChar (c : Char) : Option Char :=
  if c = '"' then some '"'
  else if c = '\\' then some '\\'
  else if c = '/' then some '/'
  else if c = 'b' then some '\x08'
  else if c = 'f' then some '\x0c'
  else if c = 'n' then some '\n'
  else if c = 'r' then some '\r'
  else if c = 't' then some '\t'
  else none

/-- Body of a JSON string after the opening quote; raw control
characters are rejected, as in strict `json.loads`. -/
def jsonStringBody (l : List Char) (acc : List Char) : Option (String × List Char) :=
  match l with
  | [] => none
  | '"' :: rest => some (String.mk acc.reverse, rest)
  | '\\' :: 'u' :: a :: b :: c :: d :: rest =>
    match hexVal a, hexVal b, hexVal c, hexVal d with
    | some x, some y, some z, some w =>
      jsonStringBody rest (Char.ofNat (((x * 16 + y) * 16 + z) * 16 + w) :: acc)
    | _, _, _, _ => none
  | '\\' :: e :: rest =>
    match escChar e with
    | some ch => jsonStringBody rest (ch :: acc)
    | none => none
  | c :: rest => if c.toNat < 32 then none else jsonStringBody rest (c :: acc)

/-- Longest digit run at the front. -/
def takeDigits (l : List Char) : List Char × List Char := l.span isDigitChar

/-- Numeric value of a digit run. -/
def digitsToNat (l : List Char) : Nat :=
  l.foldl (fun a c => a * 10 + (c.toNat - 48)) 0

/-- Drop trailing decimal zeros of an exact float, so that `1.50` and
`1.5` get one representation, as `str(float)` would print. -/
def normFloat (m : Int) (s : Nat) : Int × Nat :=
  match s with
  | 0 => (m, 0)
  | s' + 1 => if m % 10 = 0 then normFloat (m / 10) s' else (m, s' + 1)

/-- A JSON number per RFC 8259: optional minus, integer part without
leading zeros, optional fraction and exponent.  A number with a fraction
or exponent is a float (`Value.numF`) even when its value is integral. -/
def jsonNumber (l : List Char) : Option (Value × List Char) :=
  let signRes : Bool × List Char :=
    match l with
    | '-' :: r => (true, r)
    | _ => (false, l)
  let neg := signRes.1
  match takeDigits signRes.2 with
  | ([], _) => none
  | (d :: ds, l2) =>
    if d = '0' ∧ ds ≠ [] then none
    else
      let ipart := digitsToNat (d :: ds)
      let fracRes : Option (List Char × List Char) :=
        match l2 with
        | '.' :: r =>
          match takeDigits r with
          | ([], _) => none
          | (fs, r2) => some (fs, r2)
        | _ => some ([], l2)
      match fracRes with
      | none => none
      | some (fs, l3) =>
        let expRes : Option (Option Int × List Char) :=
          match l3 with
          | 'e' :: r | 'E' :: r =>
            let signE : Int × List Char :=
              match r with
              | '+' :: rr => (1, rr)
              | '-' :: rr => (-1, rr)
              | _ => (1, r)
            match takeDigits signE.2 with
            | ([], _) => none
            | (es, r2) => some (some (signE.1 * (digitsToNat es : Int)), r2)
          | _ => some (none, l3)
        match expRes with
        | none => none
        | some (eo, l4) =>
          if fs = [] ∧ eo = none then
            some (.int (if neg then -(ipart : Int) else (ipart : Int)), l4)
          else
            let m0 : Int := ((ipart * 10 ^ fs.length + digitsToNat fs : Nat) : Int)
            let scale : Int := (fs.length : Int) - eo.getD 0
            let ms : Int × Nat :=
              if scale ≤ 0 then (m0 * 10 ^ (-scale).toNat, 0) else (m0, scale.toNat)
            let norm := normFloat ms.1 ms.2
            some (.numF (if neg then -norm.1 else norm.1) norm.2, l4)

mutual

/-- One JSON value, by fuel-bounded recursive descent. -/
def jsonVal (fuel : Nat) (l : List Char) : Option (Value × List Char) :=
  match fuel with
  | 0 => none
  | f + 1 =>
    match skipWs l with
    | 'n' :: 'u' :: 'l' :: 'l' :: r => some (.null, r)
    | 't' :: 'r' :: 'u' :: 'e' :: r => some (.bool true, r)
    | 'f' :: 'a' :: 'l' :: 's' :: 'e' :: r => some (.bool false, r)
    | '"' :: r =>
      match jsonStringBody r [] with
      | some (s, r2) => some (.str s, r2)
      | none => none
    | '[' :: r =>
      match skipWs r with
      | ']' :: r2 => some (.arr [], r2)
      | _ =>
        match jsonItems f r with
        | some (xs, r2) => some (.arr xs, r2)
        | none => none
    | '\x7b' :: r =>
      match skipWs r with
      | '\x7d' :: r2 => some (.obj [], r2)
      | _ =>
        match jsonMembers f r with
        | some (fs2, r2) => some (.obj fs2, r2)
        | none => none
    | l2 => jsonNumber l2

/-- Comma-separated values up to a closing bracket. -/
def jsonItems (fuel : Nat) (l : List Char) : Option (List Value × List Char) :=
  match fuel with
  | 0 => none
  | f + 1 =>
    match jsonVal f l with
    | none => none
    | some (v, r) =>
      match skipWs r with
      | ',' :: r2 =>
        match jsonItems f r2 with
        | some (xs, r3) => some (v :: xs, r3)
        | none => none
      | ']' :: r2 => some ([v], r2)
      | _ => none

/-- Comma-separated `"key": value` members up to a closing brace. -/
def jsonMembers (fuel : Nat) (l : List Char) : Option (List (String × Value) × List Char) :=
  match fuel with
  | 0 => none
  | f + 1 =>
    match skipWs l with
    | '"' :: r =>
      match jsonStringBody r [] with
      | none => none
      | some (k, r1) =>
        match skipWs r1 with
        | ':' :: r2 =>
          match jsonVal f r2 with
          | none => none
          | some (v, r3) =>
            match skipWs r3 with
            | ',' :: r4 =>
              match jsonMembers f r4 with
              | some (fs2, r5) => some ((k, v) :: fs2, r5)
              | none => none
            | '\x7d' :: r4 => some ([(k, v)], r4)
            | _ => none
        | _ => none
    | _ => none

end

/-- Model of `json.loads`: one JSON value with only whitespace around
it; `none` models a raised `json.JSONDecodeError`. -/
def json_loads (s : String) : Option Value :=
  match jsonVal (2 * s.length + 4) s.toList with
  | some (v, rest) => if skipWs rest = [] then some v else none
  | none => none

/-! ### Clock text parsing (src/everscore.py lines 614-627) -/

/-- Python `sep in s`, at the character level. -/
def hasChar (l : List Char) (c : Char) : Bool :=
  l.any (fun x => x = c)

/-- Python `s.split(sep, 1)` when `sep` occurs: the part before the
first occurrence and the remainder after it. -/
def splitOnce (sep : Char) : List Char → List Char × List Char
  | [] => ([], [])
  | c :: rest =>
    if c = sep then ([], rest)
    else
      let p := splitOnce sep rest
      (c :: p.1, p.2)

/-- Seconds of a sub-minute clock string: `to_int(parts[0])` after
splitting on the first dot (line 620). -/
def fastS (clock : String) : Int :=
  to_intS (String.mk (splitOnce '.' clock.toList).1)

/-- Tenths of a sub-minute clock string:
`to_int(parts[1][:1]) if len(parts) > 1 and parts[1] else 0` (line 621). -/
def fastT (clock : String) : Int :=
  let after := (splitOnce '.' clock.toList).2
  if after.isEmpty then 0 else to_intS (String.mk (after.take 1))

/-- Minutes of a colon clock string: `to_int(parts[0])` (line 625). -/
def stdMin (clock : String) : Int :=
  to_intS (String.mk (splitOnce ':' clock.toList).1)

/-- Seconds of a colon clock string: `to_int(parts[1])` (line 626). -/
def stdSec (clock : String) : Int :=
  to_intS (String.mk (splitOnce ':' clock.toList).2)

/-- The clock value in tenths computed by `handle_score_update` before
the auto-mode adjustment (lines 617-627): a dot clock gives
`sec * 10 + tenths`, a colon clock gives `(minutes * 60 + seconds) * 10`,
anything else 0.  The dot is tested first. -/
def clockRawTenths (clock : String) : Int :=
  if hasChar clock.toList '.' then fastS clock * 10 + fastT clock
  else if hasChar clock.toList ':' then (stdMin clock * 60 + stdSec clock) * 10
  else 0

/-! ### The QML scene as seen from Python -/

/-- Result of a `findChild` lookup of a switch inside the mode
predicates: the child may be missing, the interrogation may raise, or
the switch is found with its `checked` property. -/
inductive Lookup where
  | missing
  | errored
  | found (checked : Bool)
deriving DecidableEq

/-- Whether a switch lookup failed (missing child or raised). -/
def lookupFailed : Lookup → Bool
  | .found _ => false
  | _ => true

/-- The digit properties of the `basketballDigits` item read back by
`_build_state_from_qml` (src/everscore.py lines 344-409). -/
structure DigitsEnv where
  homeHundreds : Int
  homeTens : Int
  homeOnes : Int
  awayHundreds : Int
  awayTens : Int
  awayOnes : Int
  shotTens : Int
  shotOnes : Int
  homeSmallTens : Int
  homeSmallOnes : Int
  awaySmallTens : Int
  awaySmallOnes : Int
  periodDigit : Int
  minuteTens : Int
  minuteOnes : Int
  secondTens : Int
  secondOnes : Int
  fastTens : Int
  fastOnes : Int
  fastTenths : Int
deriving DecidableEq

/-- Snapshot of the QML scene consulted by the Python side: window
presence, the two mode switches, the peer-filter text input
(`sourceIpInput`, `none` when the item is missing), the digits item, the
`controlPanel` item, and the presence/visibility of the `fastTenths` and
`minuteTens` clock items (`none` = item missing, `some b` = present with
visibility `b`). -/
structure QmlEnv where
  hasWindow : Bool
  manualSwitch : Lookup
  modeSwitch : Lookup
  sourceIpInput : Option String
  basketballDigits : Option DigitsEnv
  controlPanel : Bool
  fastTenthsItem : Option Bool
  minuteTensItem : Option Bool

/-- Embedding of `is_auto_mode` (src/everscore.py lines 42-61): true
when the manual switch is unchecked; if no window exists, the switch is
missing, or the interrogation raises, defaults to true. -/
def is_auto_mode (env : QmlEnv) : Bool :=
  if !env.hasWindow then true
  else
    match env.manualSwitch with
    | .missing => true
    | .errored => true
    | .found c => !c

/-- Embedding of `is_send_mode` (src/everscore.py lines 64-83): true
when the send switch is checked; if no window exists, the switch is
missing, or the interrogation raises, defaults to false. -/
def is_send_mode (env : QmlEnv) : Bool :=
  if !env.hasWindow then false
  else
    match env.modeSwitch with
    | .missing => false
    | .errored => false
    | .found c => c

/-! ### Normalizer and renderer update -/

/-- The values `handle_score_update` hands to the renderer: the score
and foul values passed to `controlPanel.setScoreDigits` /
`setFoulDigits`, the shot digits, the period digit, and the
`clockTimeInTenths` property. -/
structure RenderUpdate where
  home : Int
  visitor : Int
  shotTens : Int
  shotOnes : Int
  homeFouls : Int
  visitorFouls : Int
  periodDigit : Int
  clockTimeInTenths : Int
deriving DecidableEq

/-- The exceptions `handle_score_update` can raise on a non-string
`clock` field.  `"." in clock` raises `TypeError` when the clock is not
iterable (int, float, bool, None); when the clock is a list or dict the
membership test succeeds, and only if `"."` (or, failing that, `":"`)
is an element / a key does the subsequent `clock.split` raise
`AttributeError`.  The score, foul and period setters have already run
at the point of either raise. -/
inductive PyError where
  | clockTypeError
  | clockSplitAttributeError
deriving DecidableEq

/-- Python `sep in xs` for a separator string `sep` and a list clock:
membership compares `sep == elem` per element, which is false for every
non-string element and never raises. -/
def listHasStr (xs : List Value) (sep : String) : Bool :=
  xs.any (fun v =>
    match v with
    | .str t => t = sep
    | _ => false)

/-- Python `sep in fs` for a dict clock: key membership (JSON object
keys are strings). -/
def dictHasKey (fs : List (String × Value)) (sep : String) : Bool :=
  fs.any (fun kv => kv.1 = sep)

/-- The clock tenths computed from the `clock` field before the
auto-mode adjustment, or the exception raised on the way: a string
clock goes through the parsing of lines 617-627; a list or dict clock
passes the membership tests and keeps the initial 0 unless `"."` or
`":"` is among its elements / keys, in which case `clock.split`
raises; any other clock value is not iterable and the membership test
itself raises. -/
def clockTenthsOf (clockv : Value) : Except PyError Int :=
  match clockv with
  | .str clock => .ok (clockRawTenths clock)
  | .arr xs =>
    if listHasStr xs "." then .error .clockSplitAttributeError
    else if listHasStr xs ":" then .error .clockSplitAttributeError
    else .ok 0
  | .obj fs =>
    if dictHasKey fs "." then .error .clockSplitAttributeError
    else if dictHasKey fs ":" then .error .clockSplitAttributeError
    else .ok 0
  | _ => .error .clockTypeError

/-- Embedding of `handle_score_update` (src/everscore.py lines
575-637).  `.ok none` models the early returns when the digits item,
its window, or the control panel is unavailable; `.error` models the
exceptions on non-string clock fields described at `PyError` (a list
or dict clock without a separator member completes normally with zero
tenths).  Scores, fouls and period are tolerantly coerced; the shot
digits are Python `(shot // 10) % 10` and `shot % 10` (floor division,
nonnegative mod); the clock tenths are decremented by one in auto mode
when positive and clamped at zero. -/
def handle_score_update (env : QmlEnv) (state : PyDict) :
    Except PyError (Option RenderUpdate) :=
  if env.basketballDigits.isNone then .ok none
  else if !env.hasWindow then .ok none
  else if !env.controlPanel then .ok none
  else
    let h := to_int (dictGet state "home_score")
    let v := to_int (dictGet state "visitor_score")
    let shot := to_int (dictGet state "shot")
    let hf := to_int (dictGet state "home_fouls")
    let vf := to_int (dictGet state "visitor_fouls")
    let periodNum := firstDigit (pyStr ((dictGet state "period").getD (.str "")))
    match clockTenthsOf ((dictGet state "clock").getD (.str "0:00")) with
    | .error e => .error e
    | .ok t0 =>
      let t1 := if is_auto_mode env then (if t0 > 0 then t0 - 1 else t0) else t0
      let t2 := if t1 < 0 then 0 else t1
      .ok (some ⟨h, v, (shot.fdiv 10).emod 10, shot.emod 10, hf, vf, periodNum, t2⟩)

/-! ### Event handlers (arbitration) -/

/-- Effects of one serial event: the state emitted to the renderer via
`updateScore`, and the state retransmitted over UDP. -/
structure SerialEffects where
  published : Option PyDict
  sent : Option PyDict

/-- Effects of one UDP packet: the state emitted to the renderer, the
number of warning lines printed, and the state sent on the network (the
UDP handler contains no send call, so this last field is always none;
it is carried to state the arbitration table in full). -/
structure UdpEffects where
  published : Option PyDict
  warnings : Nat
  sent : Option PyDict

/-- Embedding of `handle_serial_data` (src/everscore.py lines 491-503):
ignored unless auto mode; otherwise published to the renderer and, in
send mode when not shutting down, retransmitted on UDP. -/
def handle_serial_data (env : QmlEnv) (shutdown : Bool) (data : PyDict) :
    SerialEffects :=
  if !is_auto_mode env then ⟨none, none⟩
  else ⟨some data, if is_send_mode env && !shutdown then some data else none⟩

/-- Embedding of `handle_udp_packet` (src/everscore.py lines 505-522):
ignored in send mode or manual mode; then the peer filter (exact string
match against the sender IP when the `sourceIpInput` text is nonempty)
is applied before any JSON parsing; then the payload is parsed, an
object is published to the renderer, a non-object is dropped silently,
and invalid JSON is dropped with one warning. -/
def handle_udp_packet (env : QmlEnv) (payload : String) (ip : String) :
    UdpEffects :=
  if is_send_mode env || !is_auto_mode env then ⟨none, 0, none⟩
  else
    let target := env.sourceIpInput.getD ""
    if target ≠ "" ∧ ip ≠ target then ⟨none, 0, none⟩
    else
      match json_loads payload with
      | some v =>
        match v with
        | .obj fields => ⟨some fields, 0, none⟩
        | _ => ⟨none, 0, none⟩
      | none => ⟨none, 1, none⟩

/-- One iteration of the UDP `receive_loop` (src/everscore.py lines
553-565), classified by what `recvfrom` produced. -/
inductive NetEvent where
  | timeout
  | oserror
  | packet (payload ip : String)

/-- Whether the receive loop keeps running after an iteration. -/
inductive LoopAction where
  | continueLoop
  | exitLoop
deriving DecidableEq

/-- Embedding of the `receive_loop` body: a timeout continues, a socket
error exits the loop, and a received packet is handed to
`handle_udp_packet` and the loop continues — packet content never
terminates the loop. -/
def loopStep (e : NetEvent) : LoopAction :=
  match e with
  | .timeout => .continueLoop
  | .oserror => .exitLoop
  | .packet _ _ => .continueLoop

/-- The displayed state after the renderer processes the publication of
a UDP packet's effects: an emitted state runs `handle_score_update`, a
dropped packet leaves the previous display untouched (a raising or
no-op update also leaves the model display unchanged). -/
def rendererAfter (env : QmlEnv) (eff : UdpEffects)
    (prev : Option RenderUpdate) : Option RenderUpdate :=
  match eff.published with
  | none => prev
  | some st =>
    match handle_score_update env st with
    | .ok (some u) => some u
    | _ => prev

/-! ### Manual push -/

/-- Embedding of `AppController._build_state_from_qml` (src/everscore.py
lines 344-409): reads the displayed digits back into a state dict;
returns the empty dict when the window or the digits item is missing.
The clock is re-encoded from the fast digits when the `fastTenths` item
is present and visible, else from the minute/second digits when the
`minuteTens` item is present (its tens digit contributing only when
visible), else as the literal `0:00`. -/
def _build_state_from_qml (env : QmlEnv) : PyDict :=
  if !env.hasWindow then []
  else
    match env.basketballDigits with
    | none => []
    | some d =>
      let clockStr :=
        if env.fastTenthsItem = some true then
          toString (d.fastTens * 10 + d.fastOnes) ++ "." ++ toString d.fastTenths
        else
          match env.minuteTensItem with
          | some vis =>
            toString ((if vis then d.minuteTens * 10 else 0) + d.minuteOnes) ++ ":"
              ++ toString d.secondTens ++ toString d.secondOnes
          | none => "0:00"
      [("home_score", Value.int (d.homeHundreds * 100 + d.homeTens * 10 + d.homeOnes)),
       ("visitor_score", Value.int (d.awayHundreds * 100 + d.awayTens * 10 + d.awayOnes)),
       ("shot", Value.int (d.shotTens * 10 + d.shotOnes)),
       ("home_fouls", Value.int (d.homeSmallTens * 10 + d.homeSmallOnes)),
       ("visitor_fouls", Value.int (d.awaySmallTens * 10 + d.awaySmallOnes)),
       ("period", Value.int d.periodDigit),
       ("clock", Value.str clockStr)]

/-- Embedding of `AppController.sendManualUpdate` (src/everscore.py
lines 331-342): returns the transmitted payload, or none when nothing
is sent.  Nothing is sent in auto mode or receive mode; otherwise the
reconstructed state is sent when it is nonempty and no shutdown is in
progress. -/
def sendManualUpdate (env : QmlEnv) (shutdown : Bool) : Option PyDict :=
  if is_auto_mode env || !is_send_mode env then none
  else
    if (_build_state_from_qml env).isEmpty = false ∧ shutdown = false then
      some (_build_state_from_qml env)
    else none

/-! ### The specification's clock codec (spec.md section 4.1) -/

/-- The structured clock representation of spec.md section 3. -/
inductive ClockRep where
  | standard (minutesTensVisible : Bool) (minutesOnes secondsTens secondsOnes : Int)
  | fast (tens ones tenths : Int)
  | unknown
deriving DecidableEq

/-- The spec's `tolerant_int` of a single character: its digit value, 0
when it is not a digit. -/
def tolerantChar (c : Char) : Int :=
  if isDigitChar c then ((c.toNat - 48 : Nat) : Int) else 0

/-- Zero-pad a seconds part to width 2, as spec.md section 4.1 asks. -/
def padSec (l : List Char) : List Char :=
  if l.length = 0 then ['0', '0']
  else if l.length = 1 then '0' :: l
  else l

/-- Modelled from the spec: `ClockCodec.decode` of spec.md section 4.1.
The program has no function producing this structured representation —
the digit decomposition of the clock value lives in `main.qml`, which
is not among the sources — so the decoder is transcribed from the
spec's words: a dot clock splits on the first dot into tolerant total
seconds `S` and first-character tenths `T`, giving
`Fast ((S / 10) % 10) (S % 10) T` with Python floor division; a colon
clock splits on the first colon into the minute text `M` and the
seconds text zero-padded to width 2, giving minute-tens visibility
`len M = 2`, minutes ones from the last character of `M`, and the two
second digits; anything else is `unknown`. -/
def specDecode (raw : String) : ClockRep :=
  let cs := raw.toList
  if hasChar cs '.' then
    let p := splitOnce '.' cs
    let S := (pythonInt (String.mk p.1)).getD 0
    let T := match p.2 with
      | [] => 0
      | c :: _ => tolerantChar c
    .fast ((S.fdiv 10).emod 10) (S.emod 10) T
  else if hasChar cs ':' then
    let p := splitOnce ':' cs
    let sec := padSec p.2
    .standard (decide (p.1.length = 2))
      (match p.1.getLast? with
       | some c => tolerantChar c % 10
       | none => 0)
      (match sec with
       | c :: _ => tolerantChar c
       | [] => 0)
      (match sec with
       | _ :: c :: _ => tolerantChar c
       | _ => 0)
  else .unknown

/-! ### Concrete scenes used to instantiate the theorems -/

/-- A digits item displaying all zeros. -/
def digitsZero : DigitsEnv :=
  ⟨0, 0, 0, 0, 0, 0, 0, 0, 0, 0, 0, 0, 0, 0, 0, 0, 0, 0, 0, 0⟩

/-- A fully loaded scene in automatic + receive mode, empty peer filter. -/
def envAutoRecv : QmlEnv :=
  ⟨true, .found false, .found false, some "", some digitsZero, true, some false, some true⟩

/-- A fully loaded scene in automatic + send mode. -/
def envAutoSend : QmlEnv :=
  ⟨true, .found false, .found true, some "", some digitsZero, true, some false, some true⟩

/-- A fully loaded scene in manual + send mode. -/
def envManualSend : QmlEnv :=
  ⟨true, .found true, .found true, some "", some digitsZero, true, some false, some true⟩

/-- Automatic + receive mode with the peer filter set to 10.0.0.5. -/
def envFiltered : QmlEnv :=
  ⟨true, .found false, .found false, some "10.0.0.5", some digitsZero, true, some false, some true⟩

/-- A scene before any window has been created. -/
def envNoWindow : QmlEnv :=
  ⟨false, .found true, .found true, none, none, false, none, none⟩

/-! ### Claims -/

/-- C8: the claim says state normalization is total on arbitrary field
mappings and never raises.  The code violates this: on a state mapping
whose `clock` field is present but not a string (here the integer 5),
`"." in clock` raises `TypeError` inside `handle_score_update`, after
the score, foul and period setters have already run. -/
theorem C8_normalizer_raises_on_nonstring_clock :
  handle_score_update envAutoRecv [("clock", Value.int 5)] = .error .clockTypeError := rfl

/-- C9: in every mode and for every input state mapping, the clock time
in tenths handed to the renderer is non-negative — negative computed
values are clamped to 0 before `clockTimeInTenths` is set. -/
theorem C9_clock_nonneg (env : QmlEnv) (st : PyDict) (u : RenderUpdate)
    (h : handle_score_update env st = .ok (some u)) :
    0 ≤ u.clockTimeInTenths := by
  unfold handle_score_update at h
  split at h
  · exact absurd h (by simp)
  · split at h
    · exact absurd h (by simp)
    · split at h
      · exact absurd h (by simp)
      · split at h
        · exact absurd h (by simp)
        · rename_i t0 ht
          simp only [Except.ok.injEq, Option.some.injEq] at h
          subst h
          simp only []
          split
          · omega
          · rename_i hneg
            omega

/-- Witness for C9 in the auto-receive scene, at the string clock
`0:05` (49 tenths delivered) and at the list clock `[1]`, which passes
the membership tests without a separator member and delivers zero
tenths. -/
theorem C9_clock_nonneg_witness :
    0 ≤ ((⟨0, 0, 0, 0, 0, 0, 0, 49⟩ : RenderUpdate)).clockTimeInTenths ∧
    0 ≤ ((⟨0, 0, 0, 0, 0, 0, 0, 0⟩ : RenderUpdate)).clockTimeInTenths :=
  ⟨C9_clock_nonneg envAutoRecv [("clock", Value.str "0:05")] _ rfl,
   C9_clock_nonneg envAutoRecv [("clock", Value.arr [Value.int 1])] _ rfl⟩

/-- C1: for every combination of the auto and send flags, a hardware
(serial) event and a well-formed, unfiltered network (UDP) event
produce exactly the publication pattern of the section 4.2 table: the
serial event is published to the renderer iff auto, and retransmitted
iff auto and send; the network event is published to the renderer iff
auto and not send, never retransmitted, and never warns. -/
theorem C1_mode_table (env : QmlEnv) (data : PyDict) (payload ip : String)
    (st : List (String × Value))
    (hparse : json_loads payload = some (.obj st))
    (hfilter : env.sourceIpInput.getD "" = "" ∨ ip = env.sourceIpInput.getD "") :
    handle_serial_data env false data =
      ⟨if is_auto_mode env then some data else none,
       if is_auto_mode env && is_send_mode env then some data else none⟩ ∧
    handle_udp_packet env payload ip =
      ⟨if is_auto_mode env && !is_send_mode env then some st else none, 0, none⟩ := by
  constructor
  · unfold handle_serial_data
    cases ha : is_auto_mode env <;> cases hs : is_send_mode env <;> simp
  · unfold handle_udp_packet
    have hf : ¬(env.sourceIpInput.getD "" ≠ "" ∧ ip ≠ env.sourceIpInput.getD "") := by
      rcases hfilter with h | h
      · simp [h]
      · simp [h]
    cases ha : is_auto_mode env <;> cases hs : is_send_mode env <;>
      simp [hf, hparse]

/-- Witness for C1 in the auto + send scene: the serial event is
published and retransmitted, while the network event is ignored. -/
theorem C1_mode_table_witness :
    handle_serial_data envAutoSend false [("home_score", Value.int 3)] =
      ⟨some [("home_score", Value.int 3)], some [("home_score", Value.int 3)]⟩ ∧
    handle_udp_packet envAutoSend "\x7b\x7d" "1.2.3.4" = ⟨none, 0, none⟩ := by
  have h := C1_mode_table envAutoSend [("home_score", Value.int 3)]
    "\x7b\x7d" "1.2.3.4" [] rfl (Or.inl rfl)
  exact ⟨h.1, h.2⟩

/-- C7: a set, nonempty peer filter discards every packet whose sender
is not an exact string match before any JSON parsing (the result is a
fixed no-effect record for every payload, with no warning even for
unparseable payloads), and an empty or missing filter accepts packets
from any sender. -/
theorem C7_peer_filter :
    (∀ (env : QmlEnv) (payload ip t : String),
      env.sourceIpInput = some t → t ≠ "" → ip ≠ t →
      handle_udp_packet env payload ip = ⟨none, 0, none⟩) ∧
    (∀ (env : QmlEnv) (payload ip : String) (st : List (String × Value)),
      env.sourceIpInput.getD "" = "" →
      is_auto_mode env = true → is_send_mode env = false →
      json_loads payload = some (.obj st) →
      handle_udp_packet env payload ip = ⟨some st, 0, none⟩) := by
  constructor
  · intro env payload ip t hsrc hne hip
    unfold handle_udp_packet
    split
    · rfl
    · simp [hsrc, hne, hip]
  · intro env payload ip st hsrc ha hs hparse
    unfold handle_udp_packet
    simp [ha, hs, hsrc, hparse]

/-- Witness for C7: the filter 10.0.0.5 rejects a garbage packet from
10.0.0.9 without even parsing it, and with no filter a packet from
10.0.0.9 is accepted and published. -/
theorem C7_peer_filter_witness :
    handle_udp_packet envFiltered "\x7bnot json" "10.0.0.9" = ⟨none, 0, none⟩ ∧
    handle_udp_packet envAutoRecv "\x7b\"home_score\": 3\x7d" "10.0.0.9" =
      ⟨some [("home_score", Value.int 3)], 0, none⟩ :=
  ⟨C7_peer_filter.1 envFiltered _ _ "10.0.0.5" rfl (by decide) (by decide),
   C7_peer_filter.2 envAutoRecv _ _ _ rfl rfl rfl rfl⟩

/-- C6 (amended): a malformed network payload never reaches the
renderer and leaves the displayed state unchanged, and never
terminates the receive loop; invalid JSON is dropped with a single
warning, while valid JSON that is not an object is dropped silently,
with no warning. -/
theorem C6_malformed_dropped (env : QmlEnv) (payload ip : String)
    (prev : Option RenderUpdate)
    (ha : is_auto_mode env = true) (hs : is_send_mode env = false)
    (hsrc : env.sourceIpInput.getD "" = "")
    (hbad : ∀ v, json_loads payload = some v → v.isObj = false) :
    handle_udp_packet env payload ip =
      ⟨none, if (json_loads payload).isNone then 1 else 0, none⟩ ∧
    loopStep (.packet payload ip) = .continueLoop ∧
    rendererAfter env (handle_udp_packet env payload ip) prev = prev := by
  have hu : handle_udp_packet env payload ip =
      ⟨none, if (json_loads payload).isNone then 1 else 0, none⟩ := by
    unfold handle_udp_packet
    cases hj : json_loads payload with
    | none => simp [ha, hs, hsrc, hj]
    | some v =>
      have hv := hbad v hj
      cases v <;> simp_all [Value.isObj, ha, hs, hsrc, hj]
  refine ⟨hu, rfl, ?_⟩
  rw [hu]
  rfl

/-- C6 counterexample: the claim says valid JSON that is not an object
is also dropped with a single warning; the payload `42` is valid JSON,
is not an object, and is dropped with zero warnings. -/
theorem C6_nonobject_silent_counterexample :
    json_loads "42" = some (Value.int 42) ∧
    (Value.int 42).isObj = false ∧
    handle_udp_packet envAutoRecv "42" "1.2.3.4" = ⟨none, 0, none⟩ ∧
    loopStep (.packet "42" "1.2.3.4") = .continueLoop :=
  ⟨rfl, rfl, rfl, rfl⟩

/-- Witness for C6 on the invalid payload of the spec's test property:
one warning, no publication, display unchanged. -/
theorem C6_malformed_dropped_witness :
    handle_udp_packet envAutoRecv "\x7bnot json" "1.2.3.4" = ⟨none, 1, none⟩ ∧
    rendererAfter envAutoRecv
      (handle_udp_packet envAutoRecv "\x7bnot json" "1.2.3.4") none = none := by
  have h := C6_malformed_dropped envAutoRecv "\x7bnot json" "1.2.3.4" none rfl rfl rfl
    (fun v hv => Option.noConfusion (show (none : Option Value) = some v from hv))
  exact ⟨h.1, h.2.2⟩

/-- C10: whenever the window or the two mode switches cannot be found
(or their interrogation raises), the mode predicates fall back to
auto = true and send = false, and the instance behaves as an automatic
receiver: serial and well-formed network events are accepted and
published to the renderer, nothing is retransmitted, and a manual push
sends nothing. -/
theorem C10_mode_fallback (env : QmlEnv) (data : PyDict) (payload ip : String)
    (st : List (String × Value))
    (hfail : env.hasWindow = false ∨
      (lookupFailed env.manualSwitch = true ∧ lookupFailed env.modeSwitch = true))
    (hsrc : env.sourceIpInput.getD "" = "")
    (hparse : json_loads payload = some (.obj st)) :
    is_auto_mode env = true ∧ is_send_mode env = false ∧
    handle_serial_data env false data = ⟨some data, none⟩ ∧
    handle_udp_packet env payload ip = ⟨some st, 0, none⟩ ∧
    sendManualUpdate env false = none := by
  have ha : is_auto_mode env = true := by
    unfold is_auto_mode
    rcases hfail with h | ⟨h1, h2⟩
    · simp [h]
    · cases hm : env.manualSwitch <;> simp_all [lookupFailed]
  have hs : is_send_mode env = false := by
    unfold is_send_mode
    rcases hfail with h | ⟨h1, h2⟩
    · simp [h]
    · cases hm : env.modeSwitch <;> simp_all [lookupFailed]
  refine ⟨ha, hs, ?_, ?_, ?_⟩
  · unfold handle_serial_data
    simp [ha, hs]
  · unfold handle_udp_packet
    simp [ha, hs, hsrc, hparse]
  · unfold sendManualUpdate
    simp [ha]

/-- Witness for C10 in the scene with no window: both switches read as
checked yet the predicates fall back, events are accepted, nothing is
sent. -/
theorem C10_mode_fallback_witness :
    is_auto_mode envNoWindow = true ∧ is_send_mode envNoWindow = false ∧
    handle_serial_data envNoWindow false [("shot", Value.int 9)] =
      ⟨some [("shot", Value.int 9)], none⟩ ∧
    handle_udp_packet envNoWindow "\x7b\x7d" "9.9.9.9" = ⟨some [], 0, none⟩ ∧
    sendManualUpdate envNoWindow false = none :=
  C10_mode_fallback envNoWindow _ _ _ [] (Or.inl rfl) rfl rfl

/-- C5: when the scene is loaded, the manual push transmits exactly
when auto is false and send is true, and the transmitted payload is
the state reconstructed from the displayed digits: scores recomposed
as `100 * hundreds + 10 * tens + ones`, shot and fouls as
`10 * tens + ones`, and the clock re-encoded per the active variant —
`S.T` from the fast digits when the fast clock is visible, else
`minutes:secondsTens secondsOnes` with the minute tens digit included
only when visible. -/
theorem C5_manual_push (env : QmlEnv) (d : DigitsEnv)
    (hw : env.hasWindow = true) (hd : env.basketballDigits = some d) :
    ((sendManualUpdate env false).isSome = true ↔
      (is_auto_mode env = false ∧ is_send_mode env = true)) ∧
    (∀ st, sendManualUpdate env false = some st →
      st = [("home_score", Value.int (100 * d.homeHundreds + 10 * d.homeTens + d.homeOnes)),
            ("visitor_score", Value.int (100 * d.awayHundreds + 10 * d.awayTens + d.awayOnes)),
            ("shot", Value.int (10 * d.shotTens + d.shotOnes)),
            ("home_fouls", Value.int (10 * d.homeSmallTens + d.homeSmallOnes)),
            ("visitor_fouls", Value.int (10 * d.awaySmallTens + d.awaySmallOnes)),
            ("period", Value.int d.periodDigit),
            ("clock", Value.str (
              if env.fastTenthsItem = some true then
                toString (10 * d.fastTens + d.fastOnes) ++ "." ++ toString d.fastTenths
              else
                match env.minuteTensItem with
                | some vis =>
                  toString ((if vis then 10 * d.minuteTens else 0) + d.minuteOnes) ++ ":"
                    ++ toString d.secondTens ++ toString d.secondOnes
                | none => "0:00"))]) := by
  have harith : ∀ a b c : Int, a * 100 + b * 10 + c = 100 * a + 10 * b + c := by
    intro a b c
    ring
  have harith2 : ∀ a b : Int, a * 10 + b = 10 * a + b := by
    intro a b
    ring
  constructor
  · unfold sendManualUpdate
    cases ha : is_auto_mode env <;> cases hs : is_send_mode env <;>
      simp [ha, hs, _build_state_from_qml, hw, hd]
  · intro st hst
    unfold sendManualUpdate at hst
    split at hst
    · exact absurd hst (by simp)
    · split at hst
      · rename_i hne
        simp only [Option.some.injEq] at hst
        subst hst
        unfold _build_state_from_qml
        simp only [hw, hd, Bool.not_true, Bool.false_eq_true, if_false]
        simp only [harith, harith2,
          show ∀ a : Int, a * 10 = 10 * a from fun a => mul_comm a 10,
          show ∀ a : Int, a * 100 = 100 * a from fun a => mul_comm a 100]
      · exact absurd hst (by simp)

/-- Witness for C5 in the manual + send scene displaying zeros: a
packet is transmitted and carries the reconstructed zero state with
the `0:00` standard clock. -/
theorem C5_manual_push_witness :
    (sendManualUpdate envManualSend false).isSome = true ∧
    sendManualUpdate envManualSend false =
      some [("home_score", Value.int 0), ("visitor_score", Value.int 0),
            ("shot", Value.int 0), ("home_fouls", Value.int 0),
            ("visitor_fouls", Value.int 0), ("period", Value.int 0),
            ("clock", Value.str "0:00")] := by
  have h := C5_manual_push envManualSend digitsZero rfl rfl
  exact ⟨h.1.mpr ⟨rfl, rfl⟩, rfl⟩

/-- C2 counterexample: the claim says the clock fields delivered to the
renderer are exactly the decoded representation of the event's raw
clock text.  The events `9.0` and `0:09` decode to different
representations (a fast clock and a standard clock), yet the program
delivers the identical renderer update for both (89 tenths: the
auto-mode path decrements the decoded 90 tenths by one), so the
delivered state cannot equal the decoded representation for both. -/
theorem C2_full_replacement_counterexample :
    handle_score_update envAutoRecv [("clock", Value.str "9.0")] =
      .ok (some ⟨0, 0, 0, 0, 0, 0, 0, 89⟩) ∧
    handle_score_update envAutoRecv [("clock", Value.str "0:09")] =
      .ok (some ⟨0, 0, 0, 0, 0, 0, 0, 89⟩) ∧
    specDecode "9.0" = ClockRep.fast 0 9 0 ∧
    specDecode "0:09" = ClockRep.standard false 0 0 9 ∧
    specDecode "9.0" ≠ specDecode "0:09" :=
  ⟨rfl, rfl, rfl, rfl, by decide⟩

/-- C2 (amended): every accepted update fully replaces the displayed
state with fields computed from that event alone, but the delivered
clock is not the decoded value exactly: acceptance happens in auto
mode, where the decoded total tenths are decremented by one when
positive (and clamped at zero), so `7:05` is delivered as 4249 tenths
(7:04.9), not 4250. -/
theorem C2_full_replacement_amended (env : QmlEnv) (st : PyDict) (clock : String)
    (hd : env.basketballDigits.isNone = false) (hw : env.hasWindow = true)
    (hc : env.controlPanel = true) (ha : is_auto_mode env = true)
    (hclock : dictGet st "clock" = some (.str clock)) :
    handle_score_update env st = .ok (some
      ⟨to_int (dictGet st "home_score"),
       to_int (dictGet st "visitor_score"),
       ((to_int (dictGet st "shot")).fdiv 10).emod 10,
       (to_int (dictGet st "shot")).emod 10,
       to_int (dictGet st "home_fouls"),
       to_int (dictGet st "visitor_fouls"),
       firstDigit (pyStr ((dictGet st "period").getD (.str ""))),
       max 0 (clockRawTenths clock - 1)⟩) := by
  unfold handle_score_update
  rw [hclock]
  simp only [hd, hw, hc, ha, Option.getD_some, clockTenthsOf, Bool.not_true,
    Bool.false_eq_true, if_false, if_true, Except.ok.injEq, Option.some.injEq,
    RenderUpdate.mk.injEq]
  refine ⟨trivial, trivial, trivial, trivial, trivial, trivial, trivial, ?_⟩
  rw [max_def]
  split_ifs <;> omega

/-- Witness for C2 (amended) at the spec's own example `7:05`: the
renderer receives 4249 tenths, one less than the decoded 4250. -/
theorem C2_full_replacement_amended_witness :
    handle_score_update envAutoRecv [("clock", Value.str "7:05")] =
      .ok (some ⟨0, 0, 0, 0, 0, 0, 0, 4249⟩) := by
  have h := C2_full_replacement_amended envAutoRecv [("clock", Value.str "7:05")]
    "7:05" rfl rfl rfl rfl rfl
  exact h

/-! ### Helper lemmas for the clock decoding claims -/

theorem mk_toList (l : List Char) : (String.mk l).toList = l := rfl

/-- Applying `to_int` to a one-character string agrees with the single
character tolerant digit value. -/
theorem to_intS_single (c : Char) : to_intS (String.mk [c]) = tolerantChar c := by
  by_cases hsp : pySpace c = true
  · have hnd : isDigitChar c = false := by
      simp only [pySpace, Bool.or_eq_true, decide_eq_true_eq] at hsp
      rcases hsp with ((((h | h) | h) | h) | h) | h <;> subst h <;> decide
    have h1 : stripWs [c] = [] := by
      simp [stripWs, List.dropWhile, hsp]
    simp [to_intS, to_int, pythonInt, mk_toList, h1, tolerantChar, hnd]
  · have h1 : stripWs [c] = [c] := by
      simp [stripWs, List.dropWhile, hsp]
    by_cases hminus : c = '-'
    · subst hminus
      simp [to_intS, to_int, pythonInt, mk_toList, h1, pyNum, tolerantChar]
    · by_cases hplus : c = '+'
      · subst hplus
        simp [to_intS, to_int, pythonInt, mk_toList, h1, pyNum, tolerantChar]
      · by_cases hd : isDigitChar c = true <;>
          simp [to_intS, to_int, pythonInt, mk_toList, h1, hminus, hplus, pyNum,
            pyDigitsRest, tolerantChar, hd]

/-- The tolerant digit value of any character lies in `[0, 10)`. -/
theorem tolerantChar_bounds (c : Char) : 0 ≤ tolerantChar c ∧ tolerantChar c < 10 := by
  unfold tolerantChar
  by_cases hd : isDigitChar c = true
  · simp only [hd, if_true]
    simp only [isDigitChar, Bool.and_eq_true, decide_eq_true_eq] at hd
    omega
  · simp [hd]

/-- The digit character for `d`. -/
def dc (d : Nat) : Char := Char.ofNat (48 + d)

/-- Basic facts about digit characters. -/
theorem dc_facts (d : Nat) (h : d < 10) :
    isDigitChar (dc d) = true ∧ (dc d).toNat = 48 + d ∧ dc d ≠ '.' ∧ dc d ≠ ':' ∧
    dc d ≠ '_' ∧ dc d ≠ '-' ∧ dc d ≠ '+' ∧ pySpace (dc d) = false := by
  interval_cases d <;> decide

/-- Tolerant value of a digit character. -/
theorem tolerantChar_dc (d : Nat) (h : d < 10) : tolerantChar (dc d) = (d : Int) := by
  interval_cases d <;> decide

/-- Python int of a one-digit numeral. -/
theorem pythonInt_one (a : Nat) (ha : a < 10) :
    pythonInt (String.mk [dc a]) = some ((a : Nat) : Int) := by
  interval_cases a <;> decide

/-- Python int of a two-digit numeral. -/
theorem pythonInt_two (a b : Nat) (ha : a < 10) (hb : b < 10) :
    pythonInt (String.mk [dc a, dc b]) = some (((10 * a + b : Nat)) : Int) := by
  interval_cases a <;> interval_cases b <;> decide

/-- Splitting at the first separator occurrence behind a clean head. -/
theorem splitOnce_appended (sep : Char) (l1 l2 : List Char) (h : ∀ c ∈ l1, c ≠ sep) :
    splitOnce sep (l1 ++ sep :: l2) = (l1, l2) := by
  induction l1 with
  | nil => simp [splitOnce]
  | cons a t ih =>
    have ha : a ≠ sep := h a (List.mem_cons_self a t)
    simp only [List.cons_append, splitOnce, ha, if_false, List.append_eq]
    rw [ih (fun c hc => h c (List.mem_cons_of_mem a hc))]

/-- C4: for every raw clock string containing a dot, the code's
decoding splits on the first dot into tolerant seconds `S` and
first-character tenths `T`, the spec decoder yields exactly
`Fast ((S / 10) % 10) (S % 10) T` over those values, and the tenths
value the code computes is `S * 10 + T`, from which `S` and `T` (and
hence the Fast digits) are recovered uniquely by floor division and
modulus. -/
theorem C4_fast_decode (raw : String) (hdot : hasChar raw.toList '.' = true) :
    specDecode raw =
      ClockRep.fast (((fastS raw).fdiv 10).emod 10) ((fastS raw).emod 10) (fastT raw) ∧
    clockRawTenths raw = fastS raw * 10 + fastT raw ∧
    0 ≤ fastT raw ∧ fastT raw < 10 ∧
    (fastS raw * 10 + fastT raw).fdiv 10 = fastS raw ∧
    (fastS raw * 10 + fastT raw).emod 10 = fastT raw := by
  have hT : fastT raw = (match (splitOnce '.' raw.toList).2 with
      | [] => (0 : Int)
      | c :: _ => tolerantChar c) := by
    unfold fastT
    cases h2 : (splitOnce '.' raw.toList).2 with
    | nil => simp
    | cons c t => simp [List.take, to_intS_single]
  have hTb : 0 ≤ fastT raw ∧ fastT raw < 10 := by
    rw [hT]
    cases h2 : (splitOnce '.' raw.toList).2 with
    | nil => simp
    | cons c t => simpa using tolerantChar_bounds c
  have hspec : specDecode raw =
      ClockRep.fast (((fastS raw).fdiv 10).emod 10) ((fastS raw).emod 10) (fastT raw) := by
    unfold specDecode
    simp only [hdot, if_true]
    rw [hT]
    rfl
  have hraw : clockRawTenths raw = fastS raw * 10 + fastT raw := by
    unfold clockRawTenths
    simp only [hdot, if_true]
  obtain ⟨hT1, hT2⟩ := hTb
  refine ⟨hspec, hraw, hT1, hT2, ?_, ?_⟩
  · rw [Int.fdiv_eq_ediv _ (by norm_num)]
    omega
  · have hgoal : (fastS raw * 10 + fastT raw) % 10 = fastT raw := by omega
    exact hgoal

/-- Witness for C4 at the spec's example `9.3`: `Fast 0 9 3` and 93
tenths. -/
theorem C4_fast_decode_witness :
    specDecode "9.3" = ClockRep.fast 0 9 3 ∧ clockRawTenths "9.3" = 93 := by
  have h := C4_fast_decode "9.3" rfl
  exact ⟨h.1.trans (by decide), h.2.1.trans (by decide)⟩

/-- The canonical colon clock string for `m` minutes and `s` seconds:
one or two minute digits followed by a colon and two second digits. -/
def stdClock (m s : Nat) : String :=
  String.mk ((if 10 ≤ m then [dc (m / 10), dc (m % 10)] else [dc m]) ++
    ':' :: [dc (s / 10), dc (s % 10)])

/-- C3 counterexample: the claim describes per-character decoding of
the minute and second parts, but the code folds the whole parts into
total time `(minutes * 60 + seconds) * 10`: the strings `5:99` and
`6:39` have different claimed Standard fields, yet the code computes
the same 3990 tenths (and hence the identical renderer delivery), so
the delivered clock cannot carry the claimed fields for both. -/
theorem C3_standard_decode_counterexample :
    clockRawTenths "5:99" = 3990 ∧ clockRawTenths "6:39" = 3990 ∧
    handle_score_update envAutoRecv [("clock", Value.str "5:99")] =
      handle_score_update envAutoRecv [("clock", Value.str "6:39")] ∧
    specDecode "5:99" = ClockRep.standard false 5 9 9 ∧
    specDecode "6:39" = ClockRep.standard false 6 3 9 ∧
    specDecode "5:99" ≠ specDecode "6:39" :=
  ⟨rfl, rfl, rfl, rfl, rfl, by decide⟩

/-- C3 (amended): on canonical colon clock strings — a one or two digit
minute numeral `m < 100` and a two-digit second numeral `s < 60` — the
code computes exactly `(m * 60 + s) * 10` tenths, which determines `m`
and `s` uniquely, and the spec decoder yields exactly the claimed
Standard fields: tens visibility iff the minute part has two digits
(iff `10 ≤ m`), minutes ones `m % 10`, second digits `s / 10` and
`s % 10`.  On non-canonical strings (seconds 60 or more, or partially
numeric parts) the code's total-time folding loses the claimed fields,
as the counterexample shows. -/
theorem C3_standard_decode_amended (m s : Nat) (hm : m < 100) (hs : s < 60) :
    clockRawTenths (stdClock m s) = ((m : Int) * 60 + (s : Int)) * 10 ∧
    specDecode (stdClock m s) =
      ClockRep.standard (decide (10 ≤ m)) ((m : Int) % 10) ((s : Int) / 10) ((s : Int) % 10) := by
  have hq : m / 10 < 10 := by omega
  have hr : m % 10 < 10 := by omega
  have hsq : s / 10 < 10 := by omega
  have hsr : s % 10 < 10 := by omega
  obtain ⟨hd3, ht3, hdot3, hcol3, _, _, _, _⟩ := dc_facts _ hsq
  obtain ⟨hd4, ht4, hdot4, hcol4, _, _, _, _⟩ := dc_facts _ hsr
  by_cases hcase : 10 ≤ m
  · obtain ⟨hd1, ht1, hdot1, hcol1, _, _, _, _⟩ := dc_facts _ hq
    obtain ⟨hd2, ht2, hdot2, hcol2, _, _, _, _⟩ := dc_facts _ hr
    have hlist : (stdClock m s).toList =
        [dc (m / 10), dc (m % 10)] ++ ':' :: [dc (s / 10), dc (s % 10)] := by
      simp [stdClock, hcase, mk_toList]
    have hmem : ∀ c ∈ [dc (m / 10), dc (m % 10)], c ≠ ':' := by
      intro c hc
      simp only [List.mem_cons, List.not_mem_nil, or_false] at hc
      rcases hc with h | h <;> subst h
      · exact hcol1
      · exact hcol2
    have hsplitL : splitOnce ':' [dc (m / 10), dc (m % 10), ':', dc (s / 10), dc (s % 10)] =
        ([dc (m / 10), dc (m % 10)], [dc (s / 10), dc (s % 10)]) :=
      splitOnce_appended ':' [dc (m / 10), dc (m % 10)] [dc (s / 10), dc (s % 10)] hmem
    constructor
    · unfold clockRawTenths stdMin stdSec
      rw [hlist]
      simp [hasChar, hdot1, hdot2, hdot3, hdot4, hsplitL, to_intS, to_int,
        pythonInt_two _ _ hq hr, pythonInt_two _ _ hsq hsr]
      omega
    · unfold specDecode
      simp only [hlist]
      simp [hasChar, hdot1, hdot2, hdot3, hdot4, hsplitL, padSec, List.getLast?,
        tolerantChar_dc _ hq, tolerantChar_dc _ hr, tolerantChar_dc _ hsq,
        tolerantChar_dc _ hsr, hcase]
  · obtain ⟨hd1, ht1, hdot1, hcol1, _, _, _, _⟩ := dc_facts m (by omega)
    have hlist : (stdClock m s).toList =
        [dc m] ++ ':' :: [dc (s / 10), dc (s % 10)] := by
      simp [stdClock, hcase, mk_toList]
    have hmem : ∀ c ∈ [dc m], c ≠ ':' := by
      intro c hc
      simp only [List.mem_cons, List.not_mem_nil, or_false] at hc
      subst hc
      exact hcol1
    have hsplitL : splitOnce ':' [dc m, ':', dc (s / 10), dc (s % 10)] =
        ([dc m], [dc (s / 10), dc (s % 10)]) :=
      splitOnce_appended ':' [dc m] [dc (s / 10), dc (s % 10)] hmem
    constructor
    · unfold clockRawTenths stdMin stdSec
      rw [hlist]
      simp [hasChar, hdot1, hdot3, hdot4, hsplitL, to_intS, to_int,
        pythonInt_one m (by omega), pythonInt_two _ _ hsq hsr]
      omega
    · unfold specDecode
      simp only [hlist]
      simp [hasChar, hdot1, hdot3, hdot4, hsplitL, padSec, List.getLast?,
        tolerantChar_dc m (by omega), tolerantChar_dc _ hsq,
        tolerantChar_dc _ hsr, hcase]

/-- Witness for C3 (amended) at the spec's example `12:34`: the code
computes 7540 tenths and the spec decoder gives
`Standard true 2 3 4`. -/
theorem C3_standard_decode_amended_witness :
    stdClock 12 34 = "12:34" ∧
    clockRawTenths (stdClock 12 34) = 7540 ∧
    specDecode (stdClock 12 34) = ClockRep.standard true 2 3 4 := by
  have h := C3_standard_decode_amended 12 34 (by norm_num) (by norm_num)
  exact ⟨by decide, h.1.trans (by norm_num), h.2.trans (by decide)⟩

end Everscore
